import Mathlib

/-
Shallow embedding of the two session state machines of the repository:

  * the playback session, from src/src/components/MusicPlayer.tsx and the
    useWebAudio hook (second document of src/src/App.tsx); the two copies of
    play/pause/seek/createSource and of the update-time interval are
    line-for-line identical, so one model covers both;
  * the capture session, from src/src/components/VideoTest.tsx and the
    earlier revision in src/unnamed/part_000 (startCamera differs there only
    in the default width/height ideals, which the model keeps abstract).

Times are rationals (the audio clock values the code subtracts and compares);
platform calls (decodeAudioData, fetch, getUserMedia, applyConstraints) are
parameters carrying their result, so each operation is a pure function of the
session state and of the platform outcome. Rendering-only state (canvas,
volume slider, device drop-down) is omitted: no modelled operation reads it.
-/

/-- Source node created by createSource and started by play: the offset it
was started at (the second argument of source.start), whether it has been
stopped, and whether it is still connected to the gain node. -/
structure Source where
  sid : Nat
  offset : ℚ
  live : Bool
  connected : Bool
deriving DecidableEq

/-- Playback session state: the refs and React state of MusicPlayer.tsx and
useWebAudio. buffer holds the duration of the decoded AudioBuffer (the only
datum of it the code reads); sources is the ledger of every source node
created so far, sourceRef the id held by sourceRef.current. -/
structure PlayerState where
  hasContext : Bool
  buffer : Option ℚ
  duration : ℚ
  fileName : String
  isLoaded : Bool
  isLoadingUrl : Bool
  currentTime : ℚ
  pauseTime : ℚ
  startTime : ℚ
  isPlaying : Bool
  sourceRef : Option Nat
  sources : List Source
  nextId : Nat
deriving DecidableEq

/-- The initial session, before any load. -/
def PlayerState.init : PlayerState :=
  { hasContext := false, buffer := none, duration := 0, fileName := ""
    isLoaded := false, isLoadingUrl := false, currentTime := 0, pauseTime := 0
    startTime := 0, isPlaying := false, sourceRef := none, sources := []
    nextId := 0 }

/-- initializeAudioContext: creates the context, gain and analyser once.
Only the existence of the context is observable to the modelled operations. -/
def initializeAudioContext (st : PlayerState) : PlayerState :=
  if st.hasContext then st else { st with hasContext := true }

/-- The disconnect call a successful load performs on a lingering source:
sourceRef.current.disconnect() removes it from the graph but neither stops it
nor clears the ref. -/
def disconnectSource (st : PlayerState) : PlayerState :=
  match st.sourceRef with
  | none => st
  | some sid =>
      { st with
        sources := st.sources.map fun s =>
          if s.sid = sid then { s with connected := false } else s }

/-- loadAudioFile: decode the chosen file. decoded carries the result of
decodeAudioData (duration on success). On failure the catch block only logs;
on success duration, fileName, isLoaded, currentTime and pauseTimeRef are set
and a lingering source is disconnected. -/
def loadAudioFile (st : PlayerState) (name : String)
    (decoded : Except String ℚ) : PlayerState :=
  let st1 := initializeAudioContext st
  match decoded with
  | .error _ => st1
  | .ok d =>
      disconnectSource
        { st1 with buffer := some d, duration := d, fileName := name
                   isLoaded := true, currentTime := 0, pauseTime := 0 }

/-- Whitespace trimming of a string, as the trim method the code applies to
the URL field and to each constraint text field: strip leading and trailing
whitespace. -/
def trimChars (s : String) : String :=
  ⟨((s.data.dropWhile Char.isWhitespace).reverse.dropWhile
      Char.isWhitespace).reverse⟩

/-- Filename derivation of loadUrl: last segment of the URL split on
slashes, with the fallback used when that segment is empty. -/
def urlFileName (url : String) : String :=
  let parts := url.splitOn "/"
  let last := parts.getLast?.getD ""
  if last = "" then "Audio from URL" else last

/-- loadUrl of useWebAudio: fetched carries the fetch outcome, decoded the
decodeAudioData outcome. The catch block rethrows a fresh error, so the
second component is what the returned promise delivers to the caller; the
finally block clears isLoadingUrl on every path. -/
def loadUrl (st : PlayerState) (url : String) (fetched : Except String Unit)
    (decoded : Except String ℚ) : PlayerState × Except String Unit :=
  if trimChars url = "" then (st, .ok ()) else
  let st1 := initializeAudioContext { st with isLoadingUrl := true }
  match fetched with
  | .error _ => ({ st1 with isLoadingUrl := false },
                 .error "Failed to load audio from URL")
  | .ok _ =>
    match decoded with
    | .error _ => ({ st1 with isLoadingUrl := false },
                   .error "Failed to load audio from URL")
    | .ok d =>
        let st2 := disconnectSource
          { st1 with buffer := some d, duration := d
                     fileName := urlFileName url, isLoaded := true
                     currentTime := 0, pauseTime := 0 }
        ({ st2 with isLoadingUrl := false }, .ok ())

/-- play at audio-clock instant now: returns unless context and buffer
exist, then creates a fresh source, overwrites sourceRef, anchors
startTimeRef, starts the source at pauseTimeRef and sets isPlaying. There is
no already-playing guard, and the previous source is not stopped. -/
def play (st : PlayerState) (now : ℚ) : PlayerState :=
  match st.hasContext, st.buffer with
  | true, some _ =>
      { st with
        sources := st.sources ++
          [{ sid := st.nextId, offset := st.pauseTime, live := true
             connected := true }]
        sourceRef := some st.nextId
        startTime := now - st.pauseTime
        isPlaying := true
        nextId := st.nextId + 1 }
  | _, _ => st

/-- The stop performed by pause: stops the source held by sourceRef, if any,
and clears the ref. -/
def stopSource (st : PlayerState) : PlayerState :=
  match st.sourceRef with
  | none => st
  | some sid =>
      { st with
        sources := st.sources.map fun s =>
          if s.sid = sid then { s with live := false } else s
        sourceRef := none }

/-- pause at instant now: stop the held source, then (when a context exists)
set pauseTimeRef to now minus startTimeRef clamped into [0, duration] by the
two successive conditionals of the code, then clear isPlaying. -/
def pause (st : PlayerState) (now : ℚ) : PlayerState :=
  let st1 := stopSource st
  let st2 :=
    if st1.hasContext then
      let p0 := now - st1.startTime
      let p1 := if p0 < 0 then 0 else p0
      let p2 := if p1 > st1.duration then st1.duration else p1
      { st1 with pauseTime := p2 }
    else st1
  { st2 with isPlaying := false }

/-- seek: writes the raw argument (no clamp) into pauseTimeRef and
currentTime; when the session was playing it then runs pause at instant now
and the deferred play at instant nowPlay (the setTimeout of 50ms). -/
def seek (st : PlayerState) (t now nowPlay : ℚ) : PlayerState :=
  let st1 := { st with pauseTime := t, currentTime := t }
  if st.isPlaying then play (pause st1 now) nowPlay else st1

/-- The onended handler registered by play, as fired when a source ends:
it resets the session only when pauseTimeRef is within 0.1 of duration. -/
def onended (st : PlayerState) : PlayerState :=
  if st.duration - 1/10 ≤ st.pauseTime then
    { st with isPlaying := false, currentTime := 0, pauseTime := 0 }
  else st

/-- One tick of the 100ms update interval, which only runs while isPlaying:
publishes the elapsed time and performs the stop transition once elapsed
reaches duration. -/
def updateTime (st : PlayerState) (now : ℚ) : PlayerState :=
  if st.hasContext ∧ st.isPlaying then
    let elapsed := now - st.startTime
    if st.duration ≤ elapsed then
      { st with isPlaying := false, currentTime := 0, pauseTime := 0 }
    else { st with currentTime := elapsed }
  else st

/-- Sources started and not yet stopped. -/
def liveSources (st : PlayerState) : List Source :=
  st.sources.filter fun s => s.live

/-- The update interval maintained by the effect keyed on isPlaying: React
holds exactly one interval while isPlaying and none otherwise, so the timer
count is a function of isPlaying. -/
def timerCount (st : PlayerState) : Nat :=
  if st.isPlaying then 1 else 0

/-- Playback offset the currently held source was started from. -/
def currentSourceOffset (st : PlayerState) : Option ℚ :=
  st.sourceRef.bind fun sid =>
    (st.sources.find? fun s => s.sid = sid).map Source.offset

/-- User operations of the playback session, each tagged with the audio
clock instants at which it runs. -/
inductive POp
| playO (now : ℚ)
| pauseO (now : ℚ)
| seekO (t now nowPlay : ℚ)
deriving DecidableEq

/-- Run a sequence of user operations. -/
def runOps : PlayerState → List POp → PlayerState
| st, [] => st
| st, POp.playO n :: rest => runOps (play st n) rest
| st, POp.pauseO n :: rest => runOps (pause st n) rest
| st, POp.seekO t n np :: rest => runOps (seek st t n np) rest

/-- An operation whose seek argument, if any, lies within [0, d]. -/
def seekOK (d : ℚ) : POp → Bool
| POp.seekO t _ _ => decide (0 ≤ t ∧ t ≤ d)
| _ => true

/-- Capture stream as returned by getUserMedia: an id and the ids of its
tracks (getVideoTracks()[0] is the head). -/
structure CamStream where
  sid : Nat
  trackIds : List Nat
deriving DecidableEq

/-- Capture session state of VideoTest.tsx, together with two ledgers that
record the hardware side effects: every stream getUserMedia ever returned
and every track id on which stop() was called. trackCapZoom and
trackCapFocus are the zoom and focusDistance ranges of the capabilities
snapshot (absent when the platform withholds them); trackSettings is the
opaque settings snapshot. -/
structure CamState where
  stream : Option CamStream
  error : Option String
  isStreaming : Bool
  trackCapZoom : Option (ℚ × ℚ)
  trackCapFocus : Option (ℚ × ℚ)
  trackSettings : Option Nat
  acquired : List CamStream
  stopped : List Nat
deriving DecidableEq

/-- The empty capture session. -/
def CamState.init : CamState :=
  { stream := none, error := none, isStreaming := false, trackCapZoom := none
    trackCapFocus := none, trackSettings := none, acquired := [], stopped := [] }

/-- Hardware events emitted by an operation, in the order the code performs
them. -/
inductive CamEv
| stopTrack (tid : Nat)
| acquire (sid : Nat)
deriving DecidableEq

/-- Track ids of the currently referenced stream. -/
def streamTracks (st : CamState) : List Nat :=
  match st.stream with
  | none => []
  | some s => s.trackIds

/-- Every track of s has been stopped according to the ledger. -/
def stoppedAll (stopped : List Nat) (s : CamStream) : Bool :=
  s.trackIds.all fun t => decide (t ∈ stopped)

/-- Acquired streams that still hold an open hardware handle, i.e. have a
track that was never stopped. -/
def liveAcquired (st : CamState) : List CamStream :=
  st.acquired.filter fun s => ! stoppedAll st.stopped s

/-- startCamera: clear the error, stop every track of the current stream if
one exists, then await getUserMedia (result). On success the new stream is
installed and the session marked streaming; on failure the catch block only
records the message. The returned event list is in execution order. -/
def startCamera (st : CamState) (result : Except String CamStream) :
    CamState × List CamEv :=
  let st1 := { st with error := none }
  let st2 := { st1 with stopped := st1.stopped ++ streamTracks st1 }
  let evs := (streamTracks st1).map CamEv.stopTrack
  match result with
  | .error msg => ({ st2 with error := some msg }, evs)
  | .ok ms =>
      ({ st2 with stream := some ms, isStreaming := true
                  acquired := st2.acquired ++ [ms] },
       evs ++ [CamEv.acquire ms.sid])

/-- stopCamera: stop all tracks, clear the stream, leave streaming mode.
No-op when no stream is held. -/
def stopCamera (st : CamState) : CamState × List CamEv :=
  match st.stream with
  | none => (st, [])
  | some s =>
      ({ st with stopped := st.stopped ++ s.trackIds, stream := none
                 isStreaming := false },
       s.trackIds.map CamEv.stopTrack)

/-- refreshTrackInfo: with no live video track all three snapshots become
null; otherwise each is read from the platform (the parameters), each
independently optional. -/
def refreshTrackInfo (st : CamState) (capZoom capFocus : Option (ℚ × ℚ))
    (settings : Option Nat) : CamState :=
  match streamTracks st with
  | [] => { st with trackCapZoom := none, trackCapFocus := none
                    trackSettings := none }
  | _ :: _ => { st with trackCapZoom := capZoom, trackCapFocus := capFocus
                        trackSettings := settings }

/-- Session invariant behind the at-most-one-open-stream property: every
stream the hardware ever handed out is fully stopped, except possibly the
one the session currently references. -/
def camInv (st : CamState) : Prop :=
  ∀ s ∈ st.acquired, stoppedAll st.stopped s = true ∨ st.stream = some s

/-- The constraint form of VideoTest.tsx. width, height and aspectRatioStr
hold the raw text inputs (aspectRatioStr embeds the aspectRatio field);
zoom and focusDistance hold the slider value arrays, whose first element the
code reads. -/
structure ConstraintForm where
  width : String
  height : String
  aspectRatioStr : String
  resizeMode : String
  zoom : List ℚ
  focusDistance : List ℚ
deriving DecidableEq

/-- Decimal digit value. -/
def decDigit (c : Char) : Option ℕ :=
  if c.isDigit then some (c.toNat - 48) else none

/-- Read a digit string as a natural number; none on any non-digit. -/
def decNatAux : List Char → ℕ → Option ℕ
| [], acc => some acc
| c :: cs, acc =>
    match decDigit c with
    | none => none
    | some d => decNatAux cs (acc * 10 + d)

/-- Number() conversion of a form field, modelled on the signed decimal
literals the numeric inputs produce; none stands for NaN. Every caller
guards with trim being nonempty before consulting the value. -/
def jsNum (s : String) : Option ℚ :=
  let t := trimChars s
  let sign : ℚ := if t.startsWith "-" then -1 else 1
  let body := if t.startsWith "-" ∨ t.startsWith "+" then t.drop 1 else t
  match body.splitOn "." with
  | [intPart] =>
      if intPart = "" then none
      else (decNatAux intPart.toList 0).map fun n => sign * n
  | [intPart, fracPart] =>
      if intPart = "" ∧ fracPart = "" then none
      else
        match decNatAux intPart.toList 0, decNatAux fracPart.toList 0 with
        | some n, some f =>
            some (sign * ((n : ℚ) + (f : ℚ) / (10 : ℚ) ^ fracPart.length))
        | _, _ => none
  | _ => none

/-- Constraint request assembled by applyCustomConstraints; a none field was
never assigned, so the request is empty exactly when all fields are none.
aspectRatioIdeal embeds the aspectRatio entry. -/
structure MTConstraintReq where
  width : Option ℚ
  height : Option ℚ
  aspectRatioIdeal : Option ℚ
  resizeMode : Option String
  zoom : Option ℚ
  focusDistance : Option ℚ
deriving DecidableEq

/-- The request with no field assigned. -/
def emptyReq : MTConstraintReq :=
  { width := none, height := none, aspectRatioIdeal := none, resizeMode := none
    zoom := none, focusDistance := none }

/-- The request-building prefix of applyCustomConstraints: each text field
is included only when nonempty after trimming, numeric and positive; the
resize mode whenever nonempty; zoom and focusDistance whenever the
capabilities snapshot reports the range and the slider array has a first
element. -/
def buildRequest (form : ConstraintForm) (capZoom capFocus : Option (ℚ × ℚ)) :
    MTConstraintReq :=
  let r := emptyReq
  let r := if trimChars form.width ≠ "" then
      match jsNum form.width with
      | some v => if 0 < v then { r with width := some v } else r
      | none => r
    else r
  let r := if trimChars form.height ≠ "" then
      match jsNum form.height with
      | some v => if 0 < v then { r with height := some v } else r
      | none => r
    else r
  let r := if trimChars form.aspectRatioStr ≠ "" then
      match jsNum form.aspectRatioStr with
      | some v => if 0 < v then { r with aspectRatioIdeal := some v } else r
      | none => r
    else r
  let r := if trimChars form.resizeMode ≠ "" then
      { r with resizeMode := some form.resizeMode }
    else r
  let r := match capZoom, form.zoom.head? with
    | some _, some z => { r with zoom := some z }
    | _, _ => r
  let r := match capFocus, form.focusDistance.head? with
    | some _, some f => { r with focusDistance := some f }
    | _, _ => r
  r

/-- applyCustomConstraints: returns early when no live video track exists or
when the assembled request is empty; otherwise awaits applyConstraints on
the track (result) and on success resyncs via refreshTrackInfo, on failure
records the message. The Bool reports whether applyConstraints was
invoked. -/
def applyCustomConstraints (st : CamState) (form : ConstraintForm)
    (result : Except String Unit) (freshCapZoom freshCapFocus : Option (ℚ × ℚ))
    (freshSettings : Option Nat) : CamState × Bool :=
  match streamTracks st with
  | [] => (st, false)
  | _ :: _ =>
      let req := buildRequest form st.trackCapZoom st.trackCapFocus
      if req = emptyReq then (st, false)
      else
        match result with
        | .ok _ =>
            (refreshTrackInfo st freshCapZoom freshCapFocus freshSettings, true)
        | .error msg => ({ st with error := some msg }, true)

/-- Concrete 30-second track loaded into a fresh session. -/
def exLoaded30 : PlayerState := loadAudioFile PlayerState.init "track.mp3" (.ok 30)

/-- The 30-second track playing from offset 0, started at audio clock 0. -/
def exPlaying30 : PlayerState := play exLoaded30 0

/-- Concrete 10-second track loaded into a fresh session. -/
def exLoaded10 : PlayerState := loadAudioFile PlayerState.init "track.mp3" (.ok 10)

/-- The 10-second track playing from offset 0, started at audio clock 0. -/
def exPlaying10 : PlayerState := play exLoaded10 0

/-- Session obtained by loading a second track while the first is playing. -/
def exAfterReload : PlayerState := loadAudioFile exPlaying30 "b.mp3" (.ok 20)

/-- Capture session holding a live stream with id 1 and one track with id 5. -/
def exCamLive : CamState :=
  { CamState.init with stream := some ⟨1, [5]⟩, isStreaming := true
                       acquired := [⟨1, [5]⟩] }

/-- Evaluation of the loaded 30-second session. -/
theorem exLoaded30_eval : exLoaded30 =
    { hasContext := true, buffer := some 30, duration := 30
      fileName := "track.mp3", isLoaded := true, isLoadingUrl := false
      currentTime := 0, pauseTime := 0, startTime := 0, isPlaying := false
      sourceRef := none, sources := [], nextId := 0 } := by rfl

/-- Evaluation of the playing 30-second session. -/
theorem exPlaying30_eval : exPlaying30 =
    { hasContext := true, buffer := some 30, duration := 30
      fileName := "track.mp3", isLoaded := true, isLoadingUrl := false
      currentTime := 0, pauseTime := 0, startTime := 0, isPlaying := true
      sourceRef := some 0
      sources := [{ sid := 0, offset := 0, live := true, connected := true }]
      nextId := 1 } := by
  rw [exPlaying30, exLoaded30_eval]; simp [play]

/-- Evaluation of the loaded 10-second session. -/
theorem exLoaded10_eval : exLoaded10 =
    { hasContext := true, buffer := some 10, duration := 10
      fileName := "track.mp3", isLoaded := true, isLoadingUrl := false
      currentTime := 0, pauseTime := 0, startTime := 0, isPlaying := false
      sourceRef := none, sources := [], nextId := 0 } := by rfl

/-- Evaluation of the playing 10-second session. -/
theorem exPlaying10_eval : exPlaying10 =
    { hasContext := true, buffer := some 10, duration := 10
      fileName := "track.mp3", isLoaded := true, isLoadingUrl := false
      currentTime := 0, pauseTime := 0, startTime := 0, isPlaying := true
      sourceRef := some 0
      sources := [{ sid := 0, offset := 0, live := true, connected := true }]
      nextId := 1 } := by
  rw [exPlaying10, exLoaded10_eval]; simp [play]

/-- Helper: play changes neither the stored offset nor the duration. -/
theorem play_fields (st : PlayerState) (now : ℚ) :
    (play st now).pauseTime = st.pauseTime ∧ (play st now).duration = st.duration := by
  unfold play; split <;> exact ⟨rfl, rfl⟩

/-- Helper: stopping the held source touches only sources and sourceRef. -/
theorem stopSource_fields (st : PlayerState) :
    (stopSource st).pauseTime = st.pauseTime ∧
    (stopSource st).duration = st.duration ∧
    (stopSource st).hasContext = st.hasContext ∧
    (stopSource st).startTime = st.startTime := by
  unfold stopSource; split <;> exact ⟨rfl, rfl, rfl, rfl⟩

/-- Helper: pause keeps the duration, and either keeps the offset (no audio
context) or replaces it with the clamped elapsed time. -/
theorem pause_eval (st : PlayerState) (now : ℚ) :
    (pause st now).duration = st.duration ∧
    ((pause st now).pauseTime = st.pauseTime ∨
     ((pause st now).pauseTime =
        (if (if now - st.startTime < 0 then 0 else now - st.startTime) > st.duration
         then st.duration else if now - st.startTime < 0 then 0 else now - st.startTime))) := by
  obtain ⟨h1, h2, h3, h4⟩ := stopSource_fields st
  unfold pause
  simp only []
  split
  · next hc =>
    refine ⟨h2, Or.inr ?_⟩
    rw [h2, h4]
  · next hc => exact ⟨h2, Or.inl h1⟩

/-- Helper: pause preserves the offset range invariant. -/
theorem pause_inv (st : PlayerState) (now : ℚ) (hd : 0 ≤ st.duration)
    (h0 : 0 ≤ st.pauseTime) (h1 : st.pauseTime ≤ st.duration) :
    0 ≤ (pause st now).pauseTime ∧ (pause st now).pauseTime ≤ (pause st now).duration := by
  obtain ⟨hdu, hp⟩ := pause_eval st now
  rw [hdu]
  rcases hp with hp | hp <;> rw [hp]
  · exact ⟨h0, h1⟩
  · constructor
    · split_ifs <;> linarith
    · split_ifs <;> linarith

/-- Helper: seek with an in-range argument preserves the offset invariant. -/
theorem seek_inv (st : PlayerState) (t now nowPlay : ℚ) (hd : 0 ≤ st.duration)
    (ht0 : 0 ≤ t) (ht1 : t ≤ st.duration) :
    0 ≤ (seek st t now nowPlay).pauseTime ∧
    (seek st t now nowPlay).pauseTime ≤ (seek st t now nowPlay).duration := by
  unfold seek
  simp only []
  split
  · set st1 : PlayerState := { st with pauseTime := t, currentTime := t } with hst1
    have hinv := pause_inv st1 now (by simpa [hst1] using hd) (by simpa [hst1] using ht0)
      (by simpa [hst1] using ht1)
    obtain ⟨hpp, hpd⟩ := play_fields (pause st1 now) nowPlay
    rw [hpp, hpd]
    exact hinv
  · exact ⟨ht0, ht1⟩

/-- Helper: seek never changes the duration. -/
theorem seek_duration (st : PlayerState) (t now nowPlay : ℚ) :
    (seek st t now nowPlay).duration = st.duration := by
  unfold seek
  simp only []
  split
  · rw [(play_fields _ _).2, (pause_eval _ _).1]
  · rfl

/-- Helper: the offset invariant holds after any sequence of play, pause and
in-range seek operations. -/
theorem runOps_inv (st : PlayerState) (ops : List POp) (hd : 0 ≤ st.duration)
    (h0 : 0 ≤ st.pauseTime) (h1 : st.pauseTime ≤ st.duration)
    (hops : ∀ op ∈ ops, seekOK st.duration op = true) :
    0 ≤ (runOps st ops).pauseTime ∧
    (runOps st ops).pauseTime ≤ (runOps st ops).duration := by
  induction ops generalizing st with
  | nil => exact ⟨h0, by simpa [runOps] using h1⟩
  | cons op rest ih =>
    cases op with
    | playO n =>
      refine ih (play st n) ?_ ?_ ?_ ?_
      · rw [(play_fields st n).2]; exact hd
      · rw [(play_fields st n).1]; exact h0
      · rw [(play_fields st n).1, (play_fields st n).2]; exact h1
      · intro op hop
        rw [(play_fields st n).2]
        exact hops op (List.mem_cons_of_mem _ hop)
    | pauseO n =>
      have hpd := (pause_eval st n).1
      obtain ⟨q0, q1⟩ := pause_inv st n hd h0 h1
      refine ih (pause st n) ?_ q0 (by rw [hpd] at q1 ⊢; exact q1) ?_
      · rw [hpd]; exact hd
      · intro op hop
        rw [hpd]
        exact hops op (List.mem_cons_of_mem _ hop)
    | seekO t n np =>
      have hok := hops (POp.seekO t n np) (List.mem_cons_self _ _)
      simp only [seekOK, decide_eq_true_eq] at hok
      obtain ⟨q0, q1⟩ := seek_inv st t n np hd hok.1 hok.2
      refine ih (seek st t n np) ?_ q0 q1 ?_
      · rw [seek_duration]; exact hd
      · intro op hop
        rw [seek_duration]
        exact hops op (List.mem_cons_of_mem _ hop)

/-- C1 (code bug, evaluation at the failing input): with a 30-second track
playing from offset 0 and the elapsed position at 5 seconds, seek(20)
restarts playback from offset 5, not from 20: the pause() inside seek
recomputes pauseTimeRef from the wall clock, overwriting the stored seek
target before the deferred play reads it, whatever the instant at which the
deferred play runs. -/
theorem C1_seek_while_playing_resumes_at_old_offset (nowPlay : ℚ) :
    currentSourceOffset (seek exPlaying30 20 5 nowPlay) = some 5 ∧
    (seek exPlaying30 20 5 nowPlay).isPlaying = true ∧
    currentSourceOffset (seek exPlaying30 20 5 nowPlay) ≠ some 20 := by
  rw [seek, exPlaying30_eval]
  norm_num [pause, stopSource, play, currentSourceOffset, List.find?]

/-- C2 (counterexample): seek stores its argument without clamping, so
seek(-5) on a loaded, non-playing 10-second track leaves the offset at -5,
below 0, violating the claimed invariant. -/
theorem C2_seek_stores_unclamped_offset :
    (seek exLoaded10 (-5) 0 0).pauseTime = -5 ∧
    ¬ (0 ≤ (seek exLoaded10 (-5) 0 0).pauseTime) := by
  rw [seek, exLoaded10_eval]
  norm_num

/-- C2 (amended): after any sequence of play, pause and seek operations in
which every seek argument already lies in the range 0 to duration, the
invariant 0 ≤ playbackOffset ≤ duration holds: play never changes the
offset, pause clamps it, and an in-range seek keeps it in range. -/
theorem C2_offset_invariant_for_in_range_seeks (st : PlayerState) (ops : List POp)
    (hd : 0 ≤ st.duration) (h0 : 0 ≤ st.pauseTime) (h1 : st.pauseTime ≤ st.duration)
    (hops : ∀ op ∈ ops, seekOK st.duration op = true) :
    0 ≤ (runOps st ops).pauseTime ∧
    (runOps st ops).pauseTime ≤ (runOps st ops).duration :=
  runOps_inv st ops hd h0 h1 hops

/-- C2 (witness): the invariant for a concrete loaded session and the
concrete sequence seek(3), play, pause. -/
theorem C2_offset_invariant_witness :
    0 ≤ (runOps exLoaded10 [POp.seekO 3 0 0, POp.playO 1, POp.pauseO 2]).pauseTime ∧
    (runOps exLoaded10 [POp.seekO 3 0 0, POp.playO 1, POp.pauseO 2]).pauseTime ≤
      (runOps exLoaded10 [POp.seekO 3 0 0, POp.playO 1, POp.pauseO 2]).duration :=
  C2_offset_invariant_for_in_range_seeks exLoaded10 _ (by rw [exLoaded10_eval]; norm_num)
    (by rw [exLoaded10_eval]) (by rw [exLoaded10_eval]; norm_num)
    (by intro op hop
        rw [exLoaded10_eval]
        fin_cases hop <;> norm_num [seekOK])

/-- C3 (counterexample): a second play() on an already playing session is
not a no-op: it starts a second source without stopping the first, so two
live sources exist and the state has changed. -/
theorem C3_second_play_adds_live_source :
    (liveSources (play exPlaying30 1)).length = 2 ∧ play exPlaying30 1 ≠ exPlaying30 := by
  rw [exPlaying30_eval]
  constructor
  · simp [play, liveSources]
  · simp [play]

/-- C3 (amended): on a loaded, already playing session a second play() keeps
isPlaying true and leaves a single interval timer, but creates and starts
one more live source (the previous one keeps playing, only the handle is
overwritten with the id of the new source). -/
theorem C3_second_play_effects (st : PlayerState) (now d : ℚ)
    (hctx : st.hasContext = true) (hbuf : st.buffer = some d)
    (hp : st.isPlaying = true) :
    (play st now).isPlaying = true ∧
    (play st now).sourceRef = some st.nextId ∧
    (liveSources (play st now)).length = (liveSources st).length + 1 ∧
    timerCount (play st now) = timerCount st := by
  simp [play, hctx, hbuf, liveSources, timerCount, hp, List.filter_append]

/-- C3 (witness): the amended statement at the concrete playing session. -/
theorem C3_second_play_effects_witness :
    (play exPlaying30 1).isPlaying = true ∧
    (play exPlaying30 1).sourceRef = some exPlaying30.nextId ∧
    (liveSources (play exPlaying30 1)).length = (liveSources exPlaying30).length + 1 ∧
    timerCount (play exPlaying30 1) = timerCount exPlaying30 :=
  C3_second_play_effects exPlaying30 1 30 (by rw [exPlaying30_eval]) (by rw [exPlaying30_eval])
    (by rw [exPlaying30_eval])

/-- C4 (counterexample): on a 10-second track started from offset 0 the
onended handler leaves the session unchanged when the source ends, because
it compares the stored start offset 0, not the current position, against
duration minus 0.1; in particular isPlaying stays true after the handler. -/
theorem C4_onended_no_transition_from_zero_offset :
    onended exPlaying10 = exPlaying10 ∧ (onended exPlaying10).isPlaying = true := by
  rw [exPlaying10_eval]
  constructor
  · norm_num [onended]
  · norm_num [onended]

/-- C4 (amended): the onended callback performs the stop transition exactly
when the stored playbackOffset is within 0.1 of duration, independent of the
playback position; for any other start offset the stop transition is instead
performed by the 100ms update interval once the elapsed time reaches
duration. -/
theorem C4_end_transition_mechanisms (st : PlayerState) (now : ℚ) :
    (st.pauseTime < st.duration - 1/10 → onended st = st) ∧
    (st.duration - 1/10 ≤ st.pauseTime →
      onended st = { st with isPlaying := false, currentTime := 0, pauseTime := 0 }) ∧
    (st.hasContext = true → st.isPlaying = true → st.duration ≤ now - st.startTime →
      updateTime st now = { st with isPlaying := false, currentTime := 0, pauseTime := 0 }) := by
  refine ⟨fun h => ?_, fun h => ?_, fun hc hp h => ?_⟩
  · rw [onended, if_neg (not_le.mpr h)]
  · rw [onended, if_pos h]
  · rw [updateTime, if_pos ⟨hc, hp⟩]
    simp only [if_pos h]

/-- C4 (witness): at the concrete playing 10-second session the handler does
nothing and the interval tick at clock 10 performs the stop transition. -/
theorem C4_end_transition_mechanisms_witness :
    onended exPlaying10 = exPlaying10 ∧
    updateTime exPlaying10 10 =
      { exPlaying10 with isPlaying := false, currentTime := 0, pauseTime := 0 } :=
  ⟨(C4_end_transition_mechanisms exPlaying10 10).1 (by rw [exPlaying10_eval]; norm_num),
   (C4_end_transition_mechanisms exPlaying10 10).2.2 (by rw [exPlaying10_eval])
     (by rw [exPlaying10_eval]) (by rw [exPlaying10_eval]; norm_num)⟩

/-- C5 (counterexample): loading a new track while one is playing leaves
isPlaying true and the previous source both referenced and live; the load
only disconnects it from the output graph, it neither stops it nor clears
the handle. -/
theorem C5_load_keeps_playing_flag :
    exAfterReload.isPlaying = true ∧
    exAfterReload.sourceRef = some 0 ∧
    liveSources exAfterReload =
      [{ sid := 0, offset := 0, live := true, connected := false }] := by
  rw [exAfterReload, exPlaying30_eval]
  refine ⟨rfl, rfl, ?_⟩
  simp [loadAudioFile, initializeAudioContext, disconnectSource, liveSources]

/-- Helper: the number of live sources is unchanged by disconnecting a
source, which only clears its connected flag. -/
theorem liveCount_disconnect (l : List Source) (sid : Nat) :
    ((l.map fun s =>
        if s.sid = sid then { s with connected := false } else s).filter
      (fun s => s.live)).length = (l.filter (fun s => s.live)).length := by
  induction l with
  | nil => rfl
  | cons s rest ih =>
    by_cases h : s.sid = sid <;>
      cases hl : s.live <;>
        simp [h, hl, List.filter_cons, ih]

/-- C5 (amended): a successful load resets playbackOffset and the published
time to 0, stores the derived track label, marks the session loaded and sets
the new duration, but leaves isPlaying as it was, keeps the source handle,
and stops no source (the count of live sources is unchanged; the lingering
source is merely disconnected). -/
theorem C5_load_resets_offset_and_label (st : PlayerState) (name : String) (d : ℚ) :
    (loadAudioFile st name (Except.ok d)).pauseTime = 0 ∧
    (loadAudioFile st name (Except.ok d)).currentTime = 0 ∧
    (loadAudioFile st name (Except.ok d)).fileName = name ∧
    (loadAudioFile st name (Except.ok d)).isLoaded = true ∧
    (loadAudioFile st name (Except.ok d)).duration = d ∧
    (loadAudioFile st name (Except.ok d)).isPlaying = st.isPlaying ∧
    (loadAudioFile st name (Except.ok d)).sourceRef = st.sourceRef ∧
    (liveSources (loadAudioFile st name (Except.ok d))).length = (liveSources st).length := by
  unfold loadAudioFile initializeAudioContext disconnectSource
  cases hc : st.hasContext <;> cases hsr : st.sourceRef <;>
    simp [hsr, liveSources, liveCount_disconnect]

/-- Helper: a track ledger that covers a larger stopped list still covers
the stream. -/
theorem stoppedAll_mono (l1 l2 : List Nat) (s : CamStream)
    (hsub : ∀ t ∈ l1, t ∈ l2) (h : stoppedAll l1 s = true) :
    stoppedAll l2 s = true := by
  simp only [stoppedAll, List.all_eq_true, decide_eq_true_eq] at h ⊢
  exact fun t ht => hsub t (h t ht)

/-- Helper: a stream whose tracks all occur in the stopped ledger is fully
stopped. -/
theorem stoppedAll_of_subset (l : List Nat) (s : CamStream)
    (h : ∀ t ∈ s.trackIds, t ∈ l) : stoppedAll l s = true := by
  simp only [stoppedAll, List.all_eq_true, decide_eq_true_eq]
  exact h

/-- Helper: a stream with a track missing from the stopped ledger is not
fully stopped. -/
theorem stoppedAll_false (l : List Nat) (s : CamStream) (t : Nat)
    (ht : t ∈ s.trackIds) (hn : t ∉ l) : stoppedAll l s = false := by
  cases h : stoppedAll l s with
  | false => rfl
  | true =>
    exfalso
    simp only [stoppedAll, List.all_eq_true, decide_eq_true_eq] at h
    exact hn (h t ht)

/-- C6: starting stream sA and then stream sB with no intervening stop
leaves exactly one open hardware stream, the one for sB; during the second
start every track of sA is stopped before the new stream is acquired (the
event list of the second call is the stops followed by the acquire); and the
at-most-one-open-stream invariant holds afterwards. The hypotheses say the
session satisfied the invariant beforehand and that sB is a fresh nonempty
stream from the platform. -/
theorem C6_restart_releases_then_acquires (st0 : CamState) (sA sB : CamStream)
    (hinv : ∀ s ∈ st0.acquired, stoppedAll st0.stopped s = true ∨ st0.stream = some s)
    (hBne : sB.trackIds ≠ [])
    (hfresh : ∀ t ∈ sB.trackIds,
      t ∉ st0.stopped ∧ t ∉ streamTracks st0 ∧ t ∉ sA.trackIds) :
    (startCamera (startCamera st0 (Except.ok sA)).1 (Except.ok sB)).1.stream = some sB ∧
    liveAcquired (startCamera (startCamera st0 (Except.ok sA)).1 (Except.ok sB)).1 = [sB] ∧
    (startCamera (startCamera st0 (Except.ok sA)).1 (Except.ok sB)).2 =
      sA.trackIds.map CamEv.stopTrack ++ [CamEv.acquire sB.sid] ∧
    camInv (startCamera (startCamera st0 (Except.ok sA)).1 (Except.ok sB)).1 := by
  have h1 : (startCamera st0 (Except.ok sA)).1 =
      { st0 with error := none, stopped := st0.stopped ++ streamTracks st0
                 stream := some sA, isStreaming := true
                 acquired := st0.acquired ++ [sA] } := rfl
  rw [h1]
  have h2 : (startCamera
      { st0 with error := none, stopped := st0.stopped ++ streamTracks st0
                 stream := some sA, isStreaming := true
                 acquired := st0.acquired ++ [sA] } (Except.ok sB)).1 =
      { st0 with error := none
                 stopped := st0.stopped ++ streamTracks st0 ++ sA.trackIds
                 stream := some sB, isStreaming := true
                 acquired := st0.acquired ++ [sA] ++ [sB] } := rfl
  rw [h2]
  have hsubS : ∀ t ∈ st0.stopped, t ∈ st0.stopped ++ streamTracks st0 ++ sA.trackIds := by
    intro t ht
    simp [ht]
  have hstr : ∀ t ∈ streamTracks st0, t ∈ st0.stopped ++ streamTracks st0 ++ sA.trackIds := by
    intro t ht
    simp [ht]
  have hAsub : ∀ t ∈ sA.trackIds, t ∈ st0.stopped ++ streamTracks st0 ++ sA.trackIds := by
    intro t ht
    simp [ht]
  have hOld : ∀ s ∈ st0.acquired,
      stoppedAll (st0.stopped ++ streamTracks st0 ++ sA.trackIds) s = true := by
    intro s hs
    rcases hinv s hs with h | h
    · exact stoppedAll_mono _ _ _ hsubS h
    · refine stoppedAll_of_subset _ _ ?_
      intro t ht
      refine hstr t ?_
      rw [streamTracks, h]
      exact ht
  have hAstop : stoppedAll (st0.stopped ++ streamTracks st0 ++ sA.trackIds) sA = true :=
    stoppedAll_of_subset _ _ hAsub
  have hBlive : stoppedAll (st0.stopped ++ streamTracks st0 ++ sA.trackIds) sB = false := by
    obtain ⟨t, ht⟩ : ∃ t, t ∈ sB.trackIds := List.exists_mem_of_ne_nil _ hBne
    obtain ⟨n1, n2, n3⟩ := hfresh t ht
    refine stoppedAll_false _ _ t ht ?_
    simp [n1, n2, n3]
  refine ⟨rfl, ?_, rfl, ?_⟩
  · rw [liveAcquired]
    simp only []
    rw [List.filter_append, List.filter_append]
    have hnilOld : st0.acquired.filter
        (fun s => ! stoppedAll (st0.stopped ++ streamTracks st0 ++ sA.trackIds) s) = [] := by
      refine List.filter_eq_nil_iff.mpr ?_
      intro s hs
      rw [hOld s hs]
      decide
    rw [hnilOld]
    simp only [List.filter_cons, ← List.append_assoc, hAstop, hBlive]
    simp
  · intro s hs
    simp only [List.mem_append] at hs
    rcases hs with (hs | hs) | hs
    · exact Or.inl (hOld s hs)
    · rw [List.mem_singleton] at hs
      subst hs
      exact Or.inl hAstop
    · rw [List.mem_singleton] at hs
      subst hs
      exact Or.inr rfl

/-- C6 (witness): the statement at the empty session with a first stream of
id 0 and track 10 and a second stream of id 1 and track 11. -/
theorem C6_restart_releases_then_acquires_witness :
    (startCamera (startCamera CamState.init (Except.ok ⟨0, [10]⟩)).1
      (Except.ok ⟨1, [11]⟩)).1.stream = some ⟨1, [11]⟩ ∧
    liveAcquired (startCamera (startCamera CamState.init (Except.ok ⟨0, [10]⟩)).1
      (Except.ok ⟨1, [11]⟩)).1 = [⟨1, [11]⟩] ∧
    (startCamera (startCamera CamState.init (Except.ok ⟨0, [10]⟩)).1
      (Except.ok ⟨1, [11]⟩)).2 =
      ([10] : List Nat).map CamEv.stopTrack ++ [CamEv.acquire 1] ∧
    camInv (startCamera (startCamera CamState.init (Except.ok ⟨0, [10]⟩)).1
      (Except.ok ⟨1, [11]⟩)).1 :=
  C6_restart_releases_then_acquires CamState.init ⟨0, [10]⟩ ⟨1, [11]⟩
    (by simp [CamState.init]) (by decide) (by decide)

/-- C7 (counterexample): when acquisition fails while a stream is live, the
session does not return to Idle: isStreaming remains true and the old stream
is still referenced even though all of its tracks have already been
stopped by the release-before-acquire step. -/
theorem C7_failed_start_from_live_not_idle :
    ¬ ((startCamera exCamLive (Except.error "Permission denied")).1.isStreaming = false) ∧
    (startCamera exCamLive (Except.error "Permission denied")).1.stream = some ⟨1, [5]⟩ ∧
    stoppedAll (startCamera exCamLive (Except.error "Permission denied")).1.stopped
      ⟨1, [5]⟩ = true := by
  decide

/-- C7 (amended): a failed start records the platform message as the session
error, never reassigns or acquires a stream, leaves the capability and
settings snapshots untouched, and keeps isStreaming as it was — so from Idle
the session remains Idle with no half-open stream, while from Live the
tracks of the previous stream are stopped yet the session stays flagged
streaming with the dead stream still referenced. -/
theorem C7_failed_start_effects (st : CamState) (msg : String) :
    (startCamera st (Except.error msg)).1.error = some msg ∧
    (startCamera st (Except.error msg)).1.stream = st.stream ∧
    (startCamera st (Except.error msg)).1.isStreaming = st.isStreaming ∧
    (startCamera st (Except.error msg)).1.acquired = st.acquired ∧
    (startCamera st (Except.error msg)).1.trackSettings = st.trackSettings ∧
    (startCamera st (Except.error msg)).1.trackCapZoom = st.trackCapZoom ∧
    (startCamera st (Except.error msg)).1.trackCapFocus = st.trackCapFocus ∧
    (startCamera st (Except.error msg)).1.stopped = st.stopped ++ streamTracks st ∧
    (startCamera st (Except.error msg)).2 = (streamTracks st).map CamEv.stopTrack :=
  ⟨rfl, rfl, rfl, rfl, rfl, rfl, rfl, rfl, rfl⟩

/-- C8: applying constraints with every text field blank and with zoom and
focus not entering the request (the capability snapshot lacks the range or
the slider array is empty) never invokes the underlying apply call and
leaves the whole session state, the settings snapshot included, unchanged. -/
theorem C8_empty_constraint_request_noop (st : CamState) (form : ConstraintForm)
    (result : Except String Unit) (fz ff : Option (ℚ × ℚ)) (fs : Option Nat)
    (hw : trimChars form.width = "") (hh : trimChars form.height = "")
    (ha : trimChars form.aspectRatioStr = "") (hr : trimChars form.resizeMode = "")
    (hz : st.trackCapZoom = none ∨ form.zoom = [])
    (hf : st.trackCapFocus = none ∨ form.focusDistance = []) :
    applyCustomConstraints st form result fz ff fs = (st, false) := by
  have hreq : buildRequest form st.trackCapZoom st.trackCapFocus = emptyReq := by
    unfold buildRequest
    rw [hw, hh, ha, hr]
    rcases hz with hz | hz <;> rcases hf with hf | hf <;> rw [hz, hf] <;>
      cases st.trackCapZoom <;> cases st.trackCapFocus <;> rfl
  unfold applyCustomConstraints
  split
  · rfl
  · simp [hreq]

/-- C8 (witness): the no-op at the live session with blank fields and no
zoom or focus capability. -/
theorem C8_empty_constraint_request_noop_witness :
    applyCustomConstraints exCamLive
      { width := "", height := "", aspectRatioStr := "", resizeMode := ""
        zoom := [1], focusDistance := [0] } (Except.ok ()) none none none =
      (exCamLive, false) :=
  C8_empty_constraint_request_noop exCamLive
    { width := "", height := "", aspectRatioStr := "", resizeMode := ""
      zoom := [1], focusDistance := [0] } (Except.ok ()) none none none
    (by decide) (by decide) (by decide) (by decide) (Or.inl rfl) (Or.inl rfl)

/-- C9 (counterexample): a failed URL load delivers an error to the caller:
the promise returned by loadUrl rejects with the rethrown message, so the
failure propagates past the session boundary. -/
theorem C9_loadUrl_rethrows :
    (loadUrl PlayerState.init "http://host/a.mp3" (Except.error "HTTP 500")
      (Except.ok 1)).2 = Except.error "Failed to load audio from URL" := by
  rfl

/-- C9 (amended): camera-session errors are captured as a displayable
message on session state and do not propagate: a failed acquisition stores
the platform message, and a failed constraint application on a live track
with a nonempty request returns normally with the message stored and the
rest of the session, snapshots included, unchanged. Playback load errors are
not captured that way: a failed file load is swallowed with only a console
log and no state change beyond context creation, and a failed URL load,
whether the fetch or the decode fails, is rethrown to the caller rather
than stored on session state. -/
theorem C9_error_surface (stc stc2 : CamState) (st : PlayerState)
    (form : ConstraintForm) (fz ff : Option (ℚ × ℚ)) (fs : Option Nat)
    (msg cmsg name e1 e2 e3 url : String) (d : Except String ℚ)
    (hurl : trimChars url ≠ "")
    (hstream : streamTracks stc2 ≠ [])
    (hne : buildRequest form stc2.trackCapZoom stc2.trackCapFocus ≠ emptyReq) :
    (startCamera stc (Except.error msg)).1.error = some msg ∧
    applyCustomConstraints stc2 form (Except.error cmsg) fz ff fs =
      ({ stc2 with error := some cmsg }, true) ∧
    loadAudioFile st name (Except.error e1) = initializeAudioContext st ∧
    (loadUrl st url (Except.error e2) d).2 =
      Except.error "Failed to load audio from URL" ∧
    (loadUrl st url (Except.ok ()) (Except.error e3)).2 =
      Except.error "Failed to load audio from URL" := by
  refine ⟨rfl, ?_, rfl, ?_, ?_⟩
  · unfold applyCustomConstraints
    split
    · next heq => exact absurd heq hstream
    · next a l heq =>
      simp only []
      rw [if_neg hne]
  · rw [loadUrl, if_neg hurl]
  · rw [loadUrl, if_neg hurl]

/-- C9 (witness): the amended statement at concrete sessions and errors: a
denied acquisition, a rejected constraint request asking for resize mode
none on the live session, a failed file decode, a failed fetch and a failed
URL decode. -/
theorem C9_error_surface_witness :
    (startCamera CamState.init (Except.error "NotAllowedError")).1.error =
      some "NotAllowedError" ∧
    applyCustomConstraints exCamLive
      { width := "", height := "", aspectRatioStr := "", resizeMode := "none"
        zoom := [], focusDistance := [] } (Except.error "OverconstrainedError")
      none none none =
      ({ exCamLive with error := some "OverconstrainedError" }, true) ∧
    loadAudioFile PlayerState.init "a.mp3" (Except.error "DecodeError") =
      initializeAudioContext PlayerState.init ∧
    (loadUrl PlayerState.init "http://host/b.mp3" (Except.error "HTTP 500")
      (Except.ok 2)).2 = Except.error "Failed to load audio from URL" ∧
    (loadUrl PlayerState.init "http://host/b.mp3" (Except.ok ())
      (Except.error "bad bytes")).2 = Except.error "Failed to load audio from URL" :=
  C9_error_surface CamState.init exCamLive PlayerState.init
    { width := "", height := "", aspectRatioStr := "", resizeMode := "none"
      zoom := [], focusDistance := [] } none none none
    "NotAllowedError" "OverconstrainedError" "a.mp3" "DecodeError" "HTTP 500"
    "bad bytes" "http://host/b.mp3" (Except.ok 2) (by decide) (by decide) (by decide)

/-- C10: on a session whose audio context already exists, a failed file load
leaves the state exactly as it was, and a failed URL load, whether the fetch
or the decode fails, changes nothing except clearing the in-progress flag:
decodedAudio, duration, trackLabel, isLoaded and playbackOffset all keep
their previous values. -/
theorem C10_failed_load_preserves_session (st : PlayerState) (name url e : String)
    (d : Except String ℚ) (hctx : st.hasContext = true) (hurl : trimChars url ≠ "") :
    loadAudioFile st name (Except.error e) = st ∧
    (loadUrl st url (Except.error e) d).1 = { st with isLoadingUrl := false } ∧
    (loadUrl st url (Except.ok ()) (Except.error e)).1 = { st with isLoadingUrl := false } := by
  have hinit : ∀ b : Bool, initializeAudioContext { st with isLoadingUrl := b } =
      { st with isLoadingUrl := b } := by
    intro b
    rw [initializeAudioContext]
    simp [hctx]
  refine ⟨?_, ?_, ?_⟩
  · show initializeAudioContext st = st
    rw [initializeAudioContext, if_pos hctx]
  · rw [loadUrl, if_neg hurl]
    simp only [hinit]
  · rw [loadUrl, if_neg hurl]
    simp only [hinit]

/-- C10 (witness): the statement at the concrete loaded session. -/
theorem C10_failed_load_preserves_session_witness :
    loadAudioFile exLoaded10 "x.mp3" (Except.error "bad bytes") = exLoaded10 ∧
    (loadUrl exLoaded10 "http://h/a" (Except.error "HTTP 404") (Except.ok 3)).1 =
      { exLoaded10 with isLoadingUrl := false } ∧
    (loadUrl exLoaded10 "http://h/a" (Except.ok ()) (Except.error "bad bytes")).1 =
      { exLoaded10 with isLoadingUrl := false } :=
  C10_failed_load_preserves_session exLoaded10 "x.mp3" "http://h/a" "bad bytes" (Except.ok 3)
    (by rw [exLoaded10_eval]) (by decide)
